import Mathlib

/-!
Shallow embedding of `src/models/utils/continual_model.py`: the abstract
continual-learning adapter class `ContinualModel`, its constructor, forward
pass, abstract training step, instrumentation wrapper, wandb logging hook and
parameter persistence, together with theorems about the behaviour of each.
-/

/-- A tensor: a shape (`dims`, the list of dimension sizes) and flat integer
data.  `dim` mirrors `torch.Tensor.dim()` (number of dimensions) and `item`
mirrors `torch.Tensor.item()` (the scalar held by a zero-dimensional tensor). -/
structure Tensor where
  dims : List Nat
  data : List Int
deriving DecidableEq, Repr

def Tensor.dim (t : Tensor) : Nat := t.dims.length

def Tensor.item (t : Tensor) : Int := t.data.headD 0

/-- A Python value as it may appear among the local variables of a training
step: a tensor, a plain number, or some other value. -/
inductive Value where
  | tensor : Tensor → Value
  | num : Int → Value
  | str : String → Value
deriving DecidableEq, Repr

/-- A batch of examples handed to the training step. -/
abbrev Batch := List Tensor

/-- The mapping of local-variable names to values captured from a call. -/
abbrev Locals := List (String × Value)

/-- A parameter state dictionary, as produced by `state_dict()`. -/
abbrev StateDict := List (String × Tensor)

/-- The kinds of optimizer the registry can produce. -/
inductive OptimizerKind where
  | sgd
  | adam
deriving DecidableEq, Repr

/-- The fixed optimizer registry of `continual_model.py`
(`optimizer_dict = {'sgd': SGD, 'adam': Adam}`). -/
def optimizer_dict : List (String × OptimizerKind) :=
  [("sgd", OptimizerKind.sgd), ("adam", OptimizerKind.adam)]

/-- A constructed optimizer: its kind, the parameter tensors it is bound to,
and its learning rate. -/
structure Optimizer where
  kind : OptimizerKind
  params : List Tensor
  lr : Rat
deriving Repr

/-- A backbone network: its named parameters and a forward function that
computes an output from the current parameters and an input. -/
structure Network where
  params : StateDict
  forwardFn : StateDict → Tensor → Tensor

/-- `net.parameters()`: the trainable parameter tensors of the network. -/
def Network.parameters (n : Network) : List Tensor := n.params.map Prod.snd

/-- `net.state_dict()`: the named parameter state of the network. -/
def Network.state_dict (n : Network) : StateDict := n.params

/-- `net(x)`: run the network on an input. -/
def Network.run (n : Network) (x : Tensor) : Tensor := n.forwardFn n.params x

/-- The slice of the `argparse.Namespace` that `continual_model.py` reads:
optimizer name, learning rate, the wandb kill switch and the debug flag. -/
structure Args where
  opt : String
  lr : Rat
  nowand : Bool
  debug_mode : Bool
deriving Repr

/-- The Python exceptions this file can raise. -/
inductive PyError where
  | keyError : String → PyError
  | notImplementedError : String → PyError
  | ioError : String → PyError
deriving DecidableEq, Repr

/-- The adapter state built by `ContinualModel.__init__`. -/
structure ContinualModel where
  NAME : String
  net : Network
  loss : Tensor → Tensor → Tensor
  args : Args
  transform : Tensor → Tensor
  opt : Optimizer

/-- `ContinualModel.__init__`: store the collaborators, build the optimizer
by looking the configured name up in `optimizer_dict` and binding it to the
network parameters at the configured learning rate (line 40), and only then
check that the concrete strategy defined a non-empty `NAME` (lines 43-44).
An unregistered optimizer name raises `KeyError` from the dictionary lookup;
an empty `NAME` raises `NotImplementedError`. -/
def ContinualModel.init (NAME : String) (backbone : Network)
    (loss : Tensor → Tensor → Tensor) (args : Args)
    (transform : Tensor → Tensor) : Except PyError ContinualModel :=
  match List.lookup args.opt optimizer_dict with
  | none => Except.error (PyError.keyError args.opt)
  | some kind =>
    let opt : Optimizer := { kind := kind, params := backbone.parameters, lr := args.lr }
    if NAME = "" then
      Except.error (PyError.notImplementedError
        "Please specify the name and the compatibility of the model.")
    else
      Except.ok { NAME := NAME, net := backbone, loss := loss, args := args,
                  transform := transform, opt := opt }

/-- `ContinualModel.forward`: `return self.net(x)`.  Returned together with
the (unchanged) adapter state to make the absence of side effects explicit. -/
def ContinualModel.forward (m : ContinualModel) (x : Tensor) :
    Tensor × ContinualModel :=
  (m.net.run x, m)

/-- The type of a training-step implementation: from the two batches to
either an exception or the returned value together with the final local
variables of the call. -/
abbrev ObserveFn := Batch → Batch → Except PyError (Value × Locals)

/-- `ContinualModel.observe`: the abstract training step of the base class.
It unconditionally raises `NotImplementedError`. -/
def ContinualModel.observe (_m : ContinualModel) (_cur_data _next_data : Batch) :
    Except PyError (Value × Locals) :=
  Except.error (PyError.notImplementedError "")

/-- One invocation of a training-step implementation, recording in a trace
the argument pair it was called with. -/
def callObserve (f : ObserveFn) (a b : Batch) :
    Except PyError (Value × Locals) × List (Batch × Batch) :=
  (f a b, [(a, b)])

/-- Modelled from the spec: `utils.magic.persistent_locals` (imported by
`continual_model.py` but not part of this fragment) wraps a function so that
calling the wrapper invokes the wrapped function with the same arguments and
returns its result unchanged, while recording the final values of the local
variables of that call for later inspection. -/
def persistent_locals (f : ObserveFn) (a b : Batch) :
    Except PyError (Value × Locals) × List (Batch × Batch) :=
  callObserve f a b

/-- Whether one character list begins with another. -/
def listBegins : List Char → List Char → Bool
  | _, [] => true
  | [], _ :: _ => false
  | c :: cs, d :: ds => c == d && listBegins cs ds

/-- Python's `s.startswith(p)`. -/
def strBegins (s p : String) : Bool := listBegins s.data p.data

/-- The value conversion inside `autolog_wandb`'s dictionary comprehension:
`v.item() if isinstance(v, torch.Tensor) and v.dim() == 0 else v`. -/
def wandbValue (v : Value) : Value :=
  match v with
  | Value.tensor t => if t.dim = 0 then Value.num t.item else Value.tensor t
  | v => v

/-- `ContinualModel.autolog_wandb`: unless `args.nowand` or `args.debug_mode`
is set, call `wandb.log` on the captured locals restricted to the keys
starting with `_wandb_` or `loss`, with zero-dimensional tensors converted to
scalars.  `some d` means `wandb.log(d)` was called; `none` means it was not. -/
def ContinualModel.autolog_wandb (m : ContinualModel) (locs : Locals) :
    Option Locals :=
  if !m.args.nowand && !m.args.debug_mode then
    some ((locs.filter
            (fun kv => strBegins kv.1 "_wandb_" || strBegins kv.1 "loss")).map
          (fun kv => (kv.1, wandbValue kv.2)))
  else
    none

/-- The observable outcome of one `meta_observe` call: the value it returns,
the mapping passed to `wandb.log` (if any), and the trace of calls made to
the training step. -/
structure MetaObserveResult where
  ret : Except PyError Value
  logged : Option Locals
  observeCalls : List (Batch × Batch)

/-- `ContinualModel.meta_observe`: if the wandb module was imported and
`args.nowand` is not set, run the training step through `persistent_locals`,
forward the captured locals to `autolog_wandb`, and return the step's result;
otherwise call the training step directly.  `wandbLoaded` models
`'wandb' in sys.modules`; `f` is the training step bound at dispatch time. -/
def ContinualModel.meta_observe (m : ContinualModel) (wandbLoaded : Bool)
    (f : ObserveFn) (cur next : Batch) : MetaObserveResult :=
  if wandbLoaded && !m.args.nowand then
    let r := persistent_locals f cur next
    match r.1 with
    | Except.error e =>
        { ret := Except.error e, logged := none, observeCalls := r.2 }
    | Except.ok (v, locs) =>
        { ret := Except.ok v, logged := m.autolog_wandb locs, observeCalls := r.2 }
  else
    let r := callObserve f cur next
    { ret := r.1.map Prod.fst, logged := none, observeCalls := r.2 }

/-- Durable storage: a map from paths to serialized parameter blobs. -/
abbrev Store := String → Option StateDict

/-- `ContinualModel.save`: `torch.save(self.net.state_dict(), save_path)`.
Returns the (unchanged) adapter and the updated storage. -/
def ContinualModel.save (m : ContinualModel) (store : Store)
    (save_path : String) : ContinualModel × Store :=
  (m, fun p => if p = save_path then some m.net.state_dict else store p)

/-- The named shapes of a state dictionary; two architectures are compatible
when these agree. -/
def StateDict.shapes (sd : StateDict) : List (String × List Nat) :=
  sd.map (fun kv => (kv.1, kv.2.dims))

/-- `net.load_state_dict(sd)`: replace the network parameters in place,
failing if the incoming state is incompatible with the network's shapes. -/
def Network.load_state_dict (n : Network) (sd : StateDict) :
    Except PyError Network :=
  if StateDict.shapes sd = StateDict.shapes n.params then
    Except.ok { n with params := sd }
  else
    Except.error (PyError.ioError "load_state_dict: incompatible state dict")

/-- `ContinualModel.load`: `self.net.load_state_dict(torch.load(load_path))`,
failing with an I/O error if the path holds nothing. -/
def ContinualModel.load (m : ContinualModel) (store : Store)
    (load_path : String) : Except PyError ContinualModel :=
  match store load_path with
  | none => Except.error (PyError.ioError "No such file or directory")
  | some sd =>
    match m.net.load_state_dict sd with
    | Except.error e => Except.error e
    | Except.ok n => Except.ok { m with net := n }

/-- `m` with only the debug flag replaced, for the noninterference claim. -/
def setDebugMode (m : ContinualModel) (d : Bool) : ContinualModel :=
  { m with args := { m.args with debug_mode := d } }

/- Concrete instances used by the witnesses. -/

/-- A concrete backbone with one 2-element weight vector. -/
def netA : Network :=
  { params := [("w", { dims := [2], data := [1, 2] })], forwardFn := fun _ x => x }

/-- A second backbone with the same architecture but different weights. -/
def netB : Network :=
  { params := [("w", { dims := [2], data := [5, 6] })], forwardFn := fun _ x => x }

/-- A concrete loss function. -/
def lossFnDemo : Tensor → Tensor → Tensor := fun p _ => p

/-- The identity transform. -/
def idTransform : Tensor → Tensor := fun x => x

/-- Arguments selecting the registered `sgd` optimizer, logging enabled. -/
def argsSgd : Args := { opt := "sgd", lr := 1 / 100, nowand := false, debug_mode := false }

/-- Arguments selecting the unregistered `rmsprop` optimizer. -/
def argsRms : Args := { opt := "rmsprop", lr := 1 / 100, nowand := false, debug_mode := false }

/-- A concrete adapter built directly over a backbone, logging enabled. -/
def mkModel (n : Network) : ContinualModel :=
  { NAME := "demo", net := n, loss := lossFnDemo, args := argsSgd,
    transform := idTransform,
    opt := { kind := OptimizerKind.sgd, params := n.parameters, lr := argsSgd.lr } }

/-- A concrete training step whose locals hold a zero-dimensional loss tensor. -/
def demoObserve : ObserveFn := fun _ _ =>
  Except.ok (Value.num 3, [("loss", Value.tensor { dims := [], data := [3] }),
                          ("inputs", Value.str "batch")])

/-- The captured locals used by the logging witness. -/
def demoLocals : Locals :=
  [("loss", Value.num 3), ("_wandb_x", Value.num 1), ("inputs", Value.str "batch")]

/-- Claim C1: for every registered optimizer name (`sgd`, `adam`), adapter
construction succeeds and yields an optimizer of the corresponding kind bound
to the network's trainable parameters at the configured learning rate; for
every name not in the registry, construction fails with the unsupported-
optimizer error (the `KeyError` raised by the registry lookup). -/
theorem init_optimizer_registry (NAME : String) (bk : Network)
    (ls : Tensor → Tensor → Tensor) (args : Args) (tr : Tensor → Tensor)
    (hname : NAME ≠ "") :
    (args.opt = "sgd" → ∃ m, ContinualModel.init NAME bk ls args tr = Except.ok m ∧
        m.opt.kind = OptimizerKind.sgd ∧ m.opt.params = bk.parameters ∧
        m.opt.lr = args.lr) ∧
    (args.opt = "adam" → ∃ m, ContinualModel.init NAME bk ls args tr = Except.ok m ∧
        m.opt.kind = OptimizerKind.adam ∧ m.opt.params = bk.parameters ∧
        m.opt.lr = args.lr) ∧
    (List.lookup args.opt optimizer_dict = none →
        ContinualModel.init NAME bk ls args tr =
          Except.error (PyError.keyError args.opt)) := by
  refine ⟨?_, ?_, ?_⟩
  · intro h
    refine ⟨{ NAME := NAME, net := bk, loss := ls, args := args, transform := tr,
              opt := { kind := OptimizerKind.sgd, params := bk.parameters,
                       lr := args.lr } }, ?_, rfl, rfl, rfl⟩
    unfold ContinualModel.init
    rw [h]
    simp [optimizer_dict, List.lookup, hname]
  · intro h
    refine ⟨{ NAME := NAME, net := bk, loss := ls, args := args, transform := tr,
              opt := { kind := OptimizerKind.adam, params := bk.parameters,
                       lr := args.lr } }, ?_, rfl, rfl, rfl⟩
    unfold ContinualModel.init
    rw [h]
    simp [optimizer_dict, List.lookup, hname]
  · intro h
    unfold ContinualModel.init
    rw [h]

/-- Claim C1 witness: constructing with `sgd` succeeds with an SGD optimizer
bound to the concrete network at the configured learning rate, and
constructing with the unregistered name `rmsprop` fails. -/
theorem init_optimizer_registry_witness :
    (∃ m, ContinualModel.init "demo" netA lossFnDemo argsSgd idTransform =
        Except.ok m ∧ m.opt.kind = OptimizerKind.sgd ∧
        m.opt.params = netA.parameters ∧ m.opt.lr = argsSgd.lr) ∧
    ContinualModel.init "demo" netA lossFnDemo argsRms idTransform =
      Except.error (PyError.keyError "rmsprop") :=
  ⟨(init_optimizer_registry "demo" netA lossFnDemo argsSgd idTransform
      (by decide)).1 rfl,
   (init_optimizer_registry "demo" netA lossFnDemo argsRms idTransform
      (by decide)).2.2 rfl⟩

/-- Claim C2: saving a network's parameters to a path and loading from that
path into a freshly constructed adapter of identical architecture yields
parameter values equal to the originals. -/
theorem save_load_roundtrip (m fresh : ContinualModel) (store : Store)
    (path : String)
    (h : StateDict.shapes fresh.net.params = StateDict.shapes m.net.params) :
    ∃ m2, fresh.load (m.save store path).2 path = Except.ok m2 ∧
      m2.net.params = m.net.params := by
  refine ⟨{ fresh with net := { fresh.net with params := m.net.params } }, ?_, rfl⟩
  unfold ContinualModel.load ContinualModel.save Network.load_state_dict
    Network.state_dict
  simp [h]

/-- Claim C2 witness: the round trip on two concrete adapters over networks
of identical architecture but different weights. -/
theorem save_load_roundtrip_witness :
    ∃ m2, (mkModel netB).load
        ((mkModel netA).save (fun _ => none) "ckpt.pt").2 "ckpt.pt" =
        Except.ok m2 ∧
      m2.net.params = (mkModel netA).net.params :=
  save_load_roundtrip (mkModel netA) (mkModel netB) (fun _ => none) "ckpt.pt"
    (by decide)

/-- Claim C3: `meta_observe` returns exactly what the training step returns,
in the instrumented branch and in the direct branch alike, and when tracking
is unavailable (`wandb` not imported) or disabled (`nowand`) no logging call
occurs. -/
theorem meta_observe_preserves_return (m : ContinualModel) (w : Bool)
    (f : ObserveFn) (a b : Batch) :
    (m.meta_observe w f a b).ret = (f a b).map Prod.fst ∧
    ((w = false ∨ m.args.nowand = true) →
      (m.meta_observe w f a b).logged = none) := by
  constructor
  · unfold ContinualModel.meta_observe persistent_locals callObserve
    split
    · cases hfa : f a b with
      | error e => simp [hfa, Except.map]
      | ok p => cases p with
        | mk v locs => simp [hfa, Except.map]
    · rfl
  · intro hw
    unfold ContinualModel.meta_observe persistent_locals callObserve
    split
    · next hc =>
        exfalso
        rcases hw with h1 | h1 <;> rw [h1] at hc <;> simp at hc
    · rfl

/-- Claim C3 witness: with `wandb` absent, the wrapper returns the concrete
training step's value and logs nothing. -/
theorem meta_observe_preserves_return_witness :
    ((mkModel netA).meta_observe false demoObserve [] []).ret =
      (demoObserve [] []).map Prod.fst ∧
    ((mkModel netA).meta_observe false demoObserve [] []).logged = none := by
  obtain ⟨h1, h2⟩ :=
    meta_observe_preserves_return (mkModel netA) false demoObserve [] []
  exact ⟨h1, h2 (Or.inl rfl)⟩

/-- Claim C5: the base training step fails with `NotImplementedError` on all
inputs, and the error propagates unrecovered through the wrapper. -/
theorem observe_not_implemented (m : ContinualModel) (cur next : Batch)
    (w : Bool) :
    m.observe cur next = Except.error (PyError.notImplementedError "") ∧
    (m.meta_observe w m.observe cur next).ret =
      Except.error (PyError.notImplementedError "") := by
  refine ⟨rfl, ?_⟩
  unfold ContinualModel.meta_observe persistent_locals callObserve
    ContinualModel.observe
  split <;> rfl

/-- Claim C6: the forward pass returns exactly the underlying network's
output on the input and leaves the adapter state unchanged. -/
theorem forward_delegates (m : ContinualModel) (x : Tensor) :
    (m.forward x).1 = m.net.run x ∧ (m.forward x).2 = m :=
  ⟨rfl, rfl⟩

/-- Claim C4: the logging hook emits exactly the captured entries whose names
start with `_wandb_` or `loss`, converting zero-dimensional tensors to
scalars, and emits nothing when the no-log flag is set or debug mode is on;
through the instrumented wrapper, an override whose locals hold a variable
named `loss` with value `v` produces an emitted mapping containing `loss`
bound to the scalar equivalent of `v`. -/
theorem autolog_wandb_spec (m : ContinualModel) (locs : Locals) :
    ((m.args.nowand = true ∨ m.args.debug_mode = true) →
      m.autolog_wandb locs = none) ∧
    (m.args.nowand = false → m.args.debug_mode = false →
      m.autolog_wandb locs =
        some ((locs.filter
                (fun kv => strBegins kv.1 "_wandb_" || strBegins kv.1 "loss")).map
              (fun kv => (kv.1, wandbValue kv.2)))) ∧
    (m.args.nowand = false → m.args.debug_mode = false →
      ∀ (f : ObserveFn) (a b : Batch) (rv : Value) (ls : Locals) (v : Value),
        f a b = Except.ok (rv, ls) → ("loss", v) ∈ ls →
        ∃ out, (m.meta_observe true f a b).logged = some out ∧
          ("loss", wandbValue v) ∈ out) := by
  refine ⟨?_, ?_, ?_⟩
  · intro hw
    unfold ContinualModel.autolog_wandb
    rcases hw with h | h <;> rw [h] <;> simp
  · intro h1 h2
    unfold ContinualModel.autolog_wandb
    rw [h1, h2]
    simp
  · intro h1 h2 f a b rv ls v hf hmem
    refine ⟨(ls.filter
        (fun kv => strBegins kv.1 "_wandb_" || strBegins kv.1 "loss")).map
        (fun kv => (kv.1, wandbValue kv.2)), ?_, ?_⟩
    · unfold ContinualModel.meta_observe persistent_locals callObserve
        ContinualModel.autolog_wandb
      rw [h1]
      simp only [Bool.not_false, Bool.and_true, Bool.true_and]
      rw [hf, h2]
      simp
    · have hfil : ("loss", v) ∈ ls.filter
          (fun kv => strBegins kv.1 "_wandb_" || strBegins kv.1 "loss") := by
        rw [List.mem_filter]
        refine ⟨hmem, ?_⟩
        show (strBegins "loss" "_wandb_" || strBegins "loss" "loss") = true
        decide
      exact List.mem_map_of_mem (fun kv => (kv.1, wandbValue kv.2)) hfil

/-- Claim C4 witness: on a concrete adapter with logging enabled, the hook
emits the filtered and converted locals, and through the wrapper a concrete
training step whose locals hold a zero-dimensional `loss` tensor of value 3
yields an emitted mapping containing `loss` bound to the scalar 3. -/
theorem autolog_wandb_spec_witness :
    (mkModel netA).autolog_wandb demoLocals =
      some ((demoLocals.filter
              (fun kv => strBegins kv.1 "_wandb_" || strBegins kv.1 "loss")).map
            (fun kv => (kv.1, wandbValue kv.2))) ∧
    ∃ out, ((mkModel netA).meta_observe true demoObserve [] []).logged =
        some out ∧
      ("loss", wandbValue (Value.tensor { dims := [], data := [3] })) ∈ out := by
  obtain ⟨h0, h1, h2⟩ := autolog_wandb_spec (mkModel netA) demoLocals
  exact ⟨h1 rfl rfl,
    h2 rfl rfl demoObserve [] [] (Value.num 3)
      [("loss", Value.tensor { dims := [], data := [3] }),
       ("inputs", Value.str "batch")]
      (Value.tensor { dims := [], data := [3] }) rfl (by decide)⟩

/-- Claim C7 counterexample: with an empty strategy name and the unregistered
optimizer name `rmsprop`, construction fails with the unsupported-optimizer
`KeyError`, not with the missing-name configuration error: the name check
does not precede optimizer selection. -/
theorem init_name_check_counterexample :
    ContinualModel.init "" netA lossFnDemo argsRms idTransform =
      Except.error (PyError.keyError "rmsprop") ∧
    ContinualModel.init "" netA lossFnDemo argsRms idTransform ≠
      Except.error (PyError.notImplementedError
        "Please specify the name and the compatibility of the model.") := by
  refine ⟨rfl, ?_⟩
  intro h
  rw [show ContinualModel.init "" netA lossFnDemo argsRms idTransform =
      Except.error (PyError.keyError "rmsprop") from rfl] at h
  injection h with h2
  exact PyError.noConfusion h2

/-- Claim C7 amended: construction validates that the identifying name is
non-empty and aborts with the missing-name configuration error otherwise, but
optimizer selection comes first: an unregistered optimizer name always aborts
construction with the unsupported-optimizer error, regardless of the name,
and the missing-name error is reached only when the optimizer name is
registered. -/
theorem init_error_order (NAME : String) (bk : Network)
    (ls : Tensor → Tensor → Tensor) (args : Args) (tr : Tensor → Tensor) :
    (List.lookup args.opt optimizer_dict = none →
      ContinualModel.init NAME bk ls args tr =
        Except.error (PyError.keyError args.opt)) ∧
    (NAME = "" → (∃ k, List.lookup args.opt optimizer_dict = some k) →
      ContinualModel.init NAME bk ls args tr =
        Except.error (PyError.notImplementedError
          "Please specify the name and the compatibility of the model.")) := by
  constructor
  · intro h
    unfold ContinualModel.init
    rw [h]
  · rintro hn ⟨k, hk⟩
    unfold ContinualModel.init
    rw [hk]
    simp [hn]

/-- Claim C7 amended witness: an empty name with unregistered `rmsprop` gives
the `KeyError`; an empty name with registered `sgd` gives the missing-name
error. -/
theorem init_error_order_witness :
    ContinualModel.init "" netA lossFnDemo argsRms idTransform =
      Except.error (PyError.keyError "rmsprop") ∧
    ContinualModel.init "" netA lossFnDemo argsSgd idTransform =
      Except.error (PyError.notImplementedError
        "Please specify the name and the compatibility of the model.") :=
  ⟨(init_error_order "" netA lossFnDemo argsRms idTransform).1 rfl,
   (init_error_order "" netA lossFnDemo argsSgd idTransform).2 rfl
     ⟨OptimizerKind.sgd, rfl⟩⟩

/-- Claim C8: each `meta_observe` call invokes the training step exactly
once, with the wrapper's arguments forwarded unchanged, in the instrumented
branch and in the direct branch alike. -/
theorem meta_observe_calls_once (m : ContinualModel) (w : Bool)
    (f : ObserveFn) (a b : Batch) :
    (m.meta_observe w f a b).observeCalls = [(a, b)] := by
  unfold ContinualModel.meta_observe persistent_locals callObserve
  split
  · cases hfa : f a b with
    | error e => simp [hfa]
    | ok p => cases p with
      | mk v locs => simp [hfa]
  · rfl

/-- Claim C9: the value returned by `meta_observe` is identical across two
runs that differ only in the debug-mode flag; debug mode gates only the
logging emission. -/
theorem meta_observe_debug_noninterference (m : ContinualModel) (w : Bool)
    (f : ObserveFn) (a b : Batch) (d1 d2 : Bool) :
    ((setDebugMode m d1).meta_observe w f a b).ret =
      ((setDebugMode m d2).meta_observe w f a b).ret := by
  unfold ContinualModel.meta_observe setDebugMode persistent_locals callObserve
  split
  · cases hfa : f a b with
    | error e => simp [hfa]
    | ok p => cases p with
      | mk v locs => simp [hfa]
  · rfl

/-- Claim C10: saving writes only the given path of durable storage and
leaves the adapter's state (network parameters, optimizer, configuration)
unchanged. -/
theorem save_frame (m : ContinualModel) (store : Store) (path : String) :
    (m.save store path).1 = m ∧
    (m.save store path).2 path = some m.net.state_dict ∧
    (∀ p, p ≠ path → (m.save store path).2 p = store p) := by
  refine ⟨rfl, ?_, ?_⟩
  · unfold ContinualModel.save
    simp
  · intro p hp
    unfold ContinualModel.save
    simp [hp]

/-- Claim C10 witness: saving a concrete adapter at one path leaves the
adapter unchanged, stores its state there, and leaves another path alone. -/
theorem save_frame_witness :
    ((mkModel netA).save (fun _ => none) "a.pt").1 = mkModel netA ∧
    ((mkModel netA).save (fun _ => none) "a.pt").2 "a.pt" =
      some (mkModel netA).net.state_dict ∧
    ((mkModel netA).save (fun _ => none) "a.pt").2 "b.pt" =
      (fun _ => none : Store) "b.pt" := by
  obtain ⟨h1, h2, h3⟩ := save_frame (mkModel netA) (fun _ => none) "a.pt"
  exact ⟨h1, h2, h3 "b.pt" (by decide)⟩
